import Mathlib

/-!
Shallow embedding of the mc_unit repository (src/mc_unit/common.py and
src/mc_unit/units.py).  Numeric values are modelled exactly as rationals;
Python floats are translated to the exact decimal literals appearing in the
source.  All definitions mirror the Python source line by line.
-/

namespace McUnit

/-! ## common.py -/

/-- The frozen dataclass Constant of common.py: a (value, unit-label) pair. -/
structure Constant where
  value : ℚ
  unit : String
deriving DecidableEq

/-- The other operand of a Constant binary operation: the Python code
branches on isinstance(other, Constant), so the operand is either another
Constant or a plain number. -/
inductive Operand where
  | const : Constant → Operand
  | num : ℚ → Operand
deriving DecidableEq

/-- Constant.__neg__ -/
def Constant.neg (self : Constant) : Constant := ⟨-self.value, self.unit⟩

/-- Constant.__pos__ -/
def Constant.pos (self : Constant) : Constant := ⟨self.value, self.unit⟩

/-- Constant.__abs__ -/
def Constant.abs (self : Constant) : Constant := ⟨|self.value|, self.unit⟩

/-- Constant.__add__ -/
def Constant.add (self : Constant) : Operand → Constant
  | .const other => ⟨self.value + other.value, self.unit⟩
  | .num other => ⟨self.value + other, self.unit⟩

/-- Constant.__radd__ delegates to __add__. -/
def Constant.radd (self : Constant) (other : Operand) : Constant :=
  self.add other

/-- Constant.__sub__ -/
def Constant.sub (self : Constant) : Operand → Constant
  | .const other => ⟨self.value - other.value, self.unit⟩
  | .num other => ⟨self.value - other, self.unit⟩

/-- Constant.__rsub__ -/
def Constant.rsub (self : Constant) : Operand → Constant
  | .const other => ⟨other.value - self.value, self.unit⟩
  | .num other => ⟨other - self.value, self.unit⟩

/-- Constant.__mul__ -/
def Constant.mul (self : Constant) : Operand → Constant
  | .const other => ⟨self.value * other.value, self.unit⟩
  | .num other => ⟨self.value * other, self.unit⟩

/-- Constant.__rmul__ delegates to __mul__. -/
def Constant.rmul (self : Constant) (other : Operand) : Constant :=
  self.mul other

/-- Constant.__truediv__ -/
def Constant.div (self : Constant) : Operand → Constant
  | .const other => ⟨self.value / other.value, self.unit⟩
  | .num other => ⟨self.value / other, self.unit⟩

/-- Constant.__rtruediv__ -/
def Constant.rdiv (self : Constant) : Operand → Constant
  | .const other => ⟨other.value / self.value, self.unit⟩
  | .num other => ⟨other / self.value, self.unit⟩

/-- Constant.__pow__ (exponent is a plain number; modelled as an integer
exponent, which covers every use in the repository). -/
def Constant.pow (self : Constant) (exponent : ℤ) : Constant :=
  ⟨self.value ^ exponent, self.unit⟩

/-- POW2 of common.py -/
def POW2 (x : ℚ) : ℚ := x * x

/-- POW3 of common.py -/
def POW3 (x : ℚ) : ℚ := x * x * x

/-- POW4 of common.py -/
def POW4 (x : ℚ) : ℚ := POW2 x * POW2 x

/-! ## units.py: the UnitSystem data model -/

/-- A unit system: the five base constants and the eight quantity factors
that every concrete system in units.py assigns in __init__. -/
structure UnitSystem where
  c : Constant
  G : Constant
  kb : Constant
  Msun : Constant
  MeV : Constant
  length : Constant
  time : Constant
  density : Constant
  mass : Constant
  energy : Constant
  pressure : Constant
  temperature : Constant
  chemical_potential : Constant
deriving DecidableEq

/-- ConversionProxy: a (source, target) pair of unit systems.  The Python
constructor validates that both endpoints are UnitSystem instances; in the
embedding that is enforced by the field types. -/
structure ConversionProxy where
  source_unit : UnitSystem
  target_unit : UnitSystem
deriving DecidableEq

/-- The value argument of UnitSystem.__call__: the Python code distinguishes
numpy arrays, lists, tuples and scalars by isinstance checks.  Arrays are
modelled as their flat element list (shape := length). -/
inductive Value where
  | scalar : ℚ → Value
  | list : List ℚ → Value
  | tuple : List ℚ → Value
  | array : List ℚ → Value
deriving DecidableEq

/-- The container kind of a Value (Python: the concrete runtime type). -/
inductive VKind where
  | scalar | list | tuple | array
deriving DecidableEq

/-- The runtime container kind of a Value. -/
def Value.kind : Value → VKind
  | .scalar _ => .scalar
  | .list _ => .list
  | .tuple _ => .tuple
  | .array _ => .array

/-- The elements held in a Value (a scalar holds one element). -/
def Value.elems : Value → List ℚ
  | .scalar x => [x]
  | .list xs => xs
  | .tuple xs => xs
  | .array xs => xs

/-- The errors UnitSystem.__call__ can raise (both are Python ValueError,
with the two distinct messages shown in units.py). -/
inductive Err where
  | unknownQuantity : String → Err
  | valueRequired : Err
deriving DecidableEq

/-- The result of UnitSystem.__call__: a factor dump (target=None), a
ConversionProxy (quantity=None), or a converted value. -/
inductive InvokeResult where
  | dump : List (String × Constant) → InvokeResult
  | proxy : ConversionProxy → InvokeResult
  | value : Value → InvokeResult
deriving DecidableEq

/-! ## units.py: conversion ratio methods -/

/-- UnitSystem.conv_length -/
def conv_length (src tar : UnitSystem) : ℚ :=
  tar.length.value / src.length.value

/-- UnitSystem.conv_time -/
def conv_time (src tar : UnitSystem) : ℚ :=
  tar.time.value / src.time.value

/-- UnitSystem.conv_velocity (the Python expression parses left to right:
((tar.length / src.length) * src.time) / tar.time). -/
def conv_velocity (src tar : UnitSystem) : ℚ :=
  tar.length.value / src.length.value * src.time.value / tar.time.value

/-- UnitSystem.conv_density -/
def conv_density (src tar : UnitSystem) : ℚ :=
  tar.density.value / src.density.value

/-- UnitSystem.conv_mass -/
def conv_mass (src tar : UnitSystem) : ℚ :=
  tar.mass.value / src.mass.value

/-- UnitSystem.conv_energy -/
def conv_energy (src tar : UnitSystem) : ℚ :=
  tar.energy.value / src.energy.value

/-- UnitSystem.conv_entropy -/
def conv_entropy (src tar : UnitSystem) : ℚ :=
  tar.kb.value / src.kb.value

/-- UnitSystem.conv_pressure -/
def conv_pressure (src tar : UnitSystem) : ℚ :=
  tar.pressure.value / src.pressure.value

/-- UnitSystem.conv_temperature -/
def conv_temperature (src tar : UnitSystem) : ℚ :=
  tar.temperature.value / src.temperature.value

/-- UnitSystem.conv_chemical_potential -/
def conv_chemical_potential (src tar : UnitSystem) : ℚ :=
  tar.chemical_potential.value / src.chemical_potential.value

/-- The quantity_map dictionary built inside UnitSystem.__call__, in source
order. -/
def quantityMap : List (String × (UnitSystem → UnitSystem → ℚ)) :=
  [("length", conv_length),
   ("time", conv_time),
   ("velocity", conv_velocity),
   ("density", conv_density),
   ("mass", conv_mass),
   ("energy", conv_energy),
   ("entropy", conv_entropy),
   ("pressure", conv_pressure),
   ("temperature", conv_temperature),
   ("chemical_potential", conv_chemical_potential)]

/-- The closed quantity set: the key set of quantity_map. -/
def quantityNames : List String := quantityMap.map Prod.fst

/-- The dictionary comprehension returned by UnitSystem.__call__ when
target_system is None, unrolled over its fixed name list. -/
def snapshot (s : UnitSystem) : List (String × Constant) :=
  [("c", s.c), ("G", s.G), ("kb", s.kb), ("Msun", s.Msun), ("MeV", s.MeV),
   ("length", s.length), ("time", s.time), ("density", s.density),
   ("mass", s.mass), ("energy", s.energy), ("pressure", s.pressure),
   ("temperature", s.temperature), ("chemical_potential", s.chemical_potential)]

/-- The factor application and type-preservation tail of UnitSystem.__call__:
numpy arrays multiply elementwise, list/tuple rebuild the same container
from the generator (v * factor for v in value), scalars multiply directly. -/
def applyFactor (factor : ℚ) : Value → Value
  | .array xs => .array (xs.map (· * factor))
  | .list xs => .list (xs.map (· * factor))
  | .tuple xs => .tuple (xs.map (· * factor))
  | .scalar x => .scalar (x * factor)

/-- UnitSystem.__call__: the direct-call universal converter of units.py.
The argument cascade mirrors the source: target_system None returns the
snapshot dump; quantity None returns a ConversionProxy; an unknown quantity
raises before the missing-value check; otherwise the factor is applied. -/
def invoke : UnitSystem → Option UnitSystem → Option String → Option Value →
    Except Err InvokeResult
  | self, none, _, _ => .ok (.dump (snapshot self))
  | self, some tar, none, _ => .ok (.proxy ⟨self, tar⟩)
  | self, some tar, some q, value =>
    match quantityMap.lookup q with
    | none => .error (.unknownQuantity q)
    | some f =>
      match value with
      | none => .error .valueRequired
      | some v => .ok (.value (applyFactor (f self tar) v))

/-- ConversionProxy.__getattr__: always succeeds (the method body never
raises), returning the one-argument converter closure. -/
def ConversionProxy.getattr (p : ConversionProxy) (quantity : String) :
    Except Err (Value → Except Err InvokeResult) :=
  .ok (fun value => invoke p.source_unit (some p.target_unit) (some quantity) (some value))

/-! ## units.py: concrete unit systems (exact decimal translations) -/

/-- The CGS system (2.99792458e10 = 29979245800, 6.67408e-8 = 667408/10^13,
1.38064852e-16 = 138064852/10^24, 1.98848e33 = 198848*10^28,
1.6021766208e-6 = 16021766208/10^16). -/
def CGS : UnitSystem where
  c := ⟨29979245800, "cm s^-1"⟩
  G := ⟨667408 / 10 ^ 13, "cm^3 g^-1 s^-2"⟩
  kb := ⟨138064852 / 10 ^ 24, "erg K^-1"⟩
  Msun := ⟨198848 * 10 ^ 28, "g"⟩
  MeV := ⟨16021766208 / 10 ^ 16, "erg"⟩
  length := ⟨1, "cm"⟩
  time := ⟨1, "s"⟩
  density := ⟨1, "g cm^-3"⟩
  mass := ⟨1, "g"⟩
  energy := ⟨1, "erg"⟩
  pressure := ⟨1, "erg cm^-3"⟩
  temperature := ⟨1, "K"⟩
  chemical_potential := ⟨1, "erg"⟩

/-- The SI system; the cgs local of SI.__init__ is the CGS instance. -/
def SI : UnitSystem where
  c := ⟨CGS.c.value / 100, "m s^-1"⟩
  G := ⟨CGS.G.value * POW3 (1 / 100) / (1 / 1000), "m^3 kg^-1 s^-2"⟩
  kb := ⟨CGS.kb.value * (1 / 10 ^ 7), "J K^-1"⟩
  Msun := ⟨CGS.Msun.value / 1000, "kg"⟩
  MeV := ⟨CGS.MeV.value * (1 / 10 ^ 7), "J"⟩
  length := ⟨1 / 100, "m"⟩
  time := ⟨1, "s"⟩
  density := ⟨1000, "kg m^-3"⟩
  mass := ⟨1 / 1000, "kg"⟩
  energy := ⟨1 / 10 ^ 7, "J"⟩
  pressure := ⟨1 / 10, "Pa"⟩
  temperature := ⟨1, "K"⟩
  chemical_potential := ⟨1 / 10 ^ 7, "J"⟩

/-- The GeometricKilometer system of units.py. -/
def GeometricKilometer : UnitSystem where
  c := ⟨1, "-"⟩
  G := ⟨1, "-"⟩
  kb := ⟨1, "-"⟩
  Msun := ⟨CGS.Msun.value * CGS.G.value / POW2 CGS.c.value * (1 / 10 ^ 5), "km"⟩
  MeV := ⟨CGS.MeV.value * CGS.G.value / POW4 CGS.c.value * (1 / 10 ^ 5), "km"⟩
  length := ⟨1 / 10 ^ 5, "km"⟩
  time := ⟨CGS.c.value * (1 / 10 ^ 5), "km"⟩
  density := ⟨10 ^ 15, "km^-3"⟩
  mass := ⟨CGS.G.value / POW2 CGS.c.value * (1 / 10 ^ 5), "km"⟩
  energy := ⟨CGS.G.value / POW4 CGS.c.value * (1 / 10 ^ 5), "km"⟩
  pressure := ⟨CGS.G.value / POW4 CGS.c.value * 10 ^ 10, "km^-2"⟩
  temperature := ⟨CGS.kb.value * CGS.G.value / POW4 CGS.c.value * (1 / 10 ^ 5), "km"⟩
  chemical_potential := ⟨CGS.kb.value / CGS.MeV.value, "MeV"⟩

/-- The GeometricSolar system of units.py. -/
def GeometricSolar : UnitSystem where
  c := ⟨1, "-"⟩
  G := ⟨1, "-"⟩
  kb := ⟨1, "-"⟩
  Msun := ⟨1, "-"⟩
  MeV := ⟨CGS.MeV.value / POW2 CGS.c.value, "Msun"⟩
  length := ⟨POW2 CGS.c.value / (CGS.G.value * CGS.Msun.value), "Msun"⟩
  time := ⟨POW3 CGS.c.value / (CGS.G.value * CGS.Msun.value), "Msun"⟩
  density := ⟨POW3 (CGS.G.value * CGS.Msun.value / POW2 CGS.c.value), "Msun^-3"⟩
  mass := ⟨1 / CGS.Msun.value, "Msun"⟩
  energy := ⟨1 / (CGS.Msun.value * POW2 CGS.c.value), "Msun"⟩
  pressure := ⟨POW3 (CGS.G.value / POW2 CGS.c.value) *
    POW2 (CGS.Msun.value / CGS.c.value), "Msun^-2"⟩
  temperature := ⟨CGS.kb.value / CGS.MeV.value, "MeV"⟩
  chemical_potential := ⟨CGS.kb.value / CGS.MeV.value, "MeV"⟩

/-- The Nuclear system of units.py. -/
def Nuclear : UnitSystem where
  c := ⟨1, "-"⟩
  G := ⟨CGS.G.value * CGS.MeV.value / POW4 CGS.c.value * 10 ^ 13, "fm"⟩
  kb := ⟨1, "-"⟩
  Msun := ⟨CGS.Msun.value * POW2 CGS.c.value / CGS.MeV.value, "MeV"⟩
  MeV := ⟨1, "MeV"⟩
  length := ⟨10 ^ 13, "fm"⟩
  time := ⟨CGS.c.value * 10 ^ 13, "fm"⟩
  density := ⟨1 / 10 ^ 39, "fm^-3"⟩
  mass := ⟨POW2 CGS.c.value / CGS.MeV.value, "MeV"⟩
  energy := ⟨1 / CGS.MeV.value, "MeV"⟩
  pressure := ⟨(1 / 10 ^ 39) / CGS.MeV.value, "MeV fm^-3"⟩
  temperature := ⟨CGS.kb.value / CGS.MeV.value, "MeV"⟩
  chemical_potential := ⟨CGS.kb.value / CGS.MeV.value, "MeV"⟩

/-- Names for the five unit-system singletons instantiated at module load
(us_CGS, us_SI, us_GeometricKilometer, us_GeometricSolar, us_Nuclear). -/
inductive SysName where
  | cgs | si | geometricKilometer | geometricSolar | nuclear
deriving DecidableEq

/-- The concrete system named by a SysName. -/
def sys : SysName → UnitSystem
  | .cgs => CGS
  | .si => SI
  | .geometricKilometer => GeometricKilometer
  | .geometricSolar => GeometricSolar
  | .nuclear => Nuclear

/-- All quantity factors (and kb) of a unit system are nonzero. -/
def FactorsNe (u : UnitSystem) : Prop :=
  u.length.value ≠ 0 ∧ u.time.value ≠ 0 ∧ u.density.value ≠ 0 ∧ u.mass.value ≠ 0 ∧
  u.energy.value ≠ 0 ∧ u.pressure.value ≠ 0 ∧ u.temperature.value ≠ 0 ∧
  u.chemical_potential.value ≠ 0 ∧ u.kb.value ≠ 0

/-! ## Helper lemmas -/

theorem lookup_length : quantityMap.lookup "length" = some conv_length := rfl

theorem lookup_time : quantityMap.lookup "time" = some conv_time := rfl

theorem lookup_velocity : quantityMap.lookup "velocity" = some conv_velocity := rfl

theorem lookup_density : quantityMap.lookup "density" = some conv_density := rfl

theorem lookup_mass : quantityMap.lookup "mass" = some conv_mass := rfl

theorem lookup_energy : quantityMap.lookup "energy" = some conv_energy := rfl

theorem lookup_entropy : quantityMap.lookup "entropy" = some conv_entropy := rfl

theorem lookup_pressure : quantityMap.lookup "pressure" = some conv_pressure := rfl

theorem lookup_temperature : quantityMap.lookup "temperature" = some conv_temperature := rfl

theorem lookup_chemical : quantityMap.lookup "chemical_potential" = some conv_chemical_potential := rfl

/-- Reduction of invoke on the success path, given the quantity-map lookup. -/
theorem invoke_val (A B : UnitSystem) (q : String) (f : UnitSystem → UnitSystem → ℚ)
    (h : quantityMap.lookup q = some f) (v : Value) :
    invoke A (some B) (some q) (some v) = .ok (.value (applyFactor (f A B) v)) := by
  simp only [invoke, h]

/-- Reduction of invoke to the missing-value error, given the lookup. -/
theorem invoke_no_value (A B : UnitSystem) (q : String) (f : UnitSystem → UnitSystem → ℚ)
    (h : quantityMap.lookup q = some f) :
    invoke A (some B) (some q) none = .error .valueRequired := by
  simp only [invoke, h]

/-- A name outside the closed quantity set is absent from quantity_map. -/
theorem lookup_eq_none_of_not_mem (q : String) (hq : q ∉ quantityNames) :
    quantityMap.lookup q = none := by
  simp only [quantityNames, quantityMap, List.map_cons, List.map_nil, List.mem_cons,
    List.not_mem_nil, or_false, not_or] at hq
  obtain ⟨h1, h2, h3, h4, h5, h6, h7, h8, h9, h10⟩ := hq
  simp only [quantityMap, List.lookup, beq_eq_false_iff_ne.mpr h1,
    beq_eq_false_iff_ne.mpr h2, beq_eq_false_iff_ne.mpr h3, beq_eq_false_iff_ne.mpr h4,
    beq_eq_false_iff_ne.mpr h5, beq_eq_false_iff_ne.mpr h6, beq_eq_false_iff_ne.mpr h7,
    beq_eq_false_iff_ne.mpr h8, beq_eq_false_iff_ne.mpr h9, beq_eq_false_iff_ne.mpr h10]

/-- Scaling preserves the container kind. -/
theorem applyFactor_kind (f : ℚ) (v : Value) : (applyFactor f v).kind = v.kind := by
  cases v <;> rfl

/-- Scaling multiplies each held element by the factor. -/
theorem applyFactor_elems (f : ℚ) (v : Value) :
    (applyFactor f v).elems = v.elems.map (· * f) := by
  cases v <;> rfl

/-- Every concrete system has nonzero factors. -/
theorem factorsNe_sys (s : SysName) : FactorsNe (sys s) := by
  cases s <;>
    refine ⟨?_, ?_, ?_, ?_, ?_, ?_, ?_, ?_, ?_⟩ <;>
    norm_num [sys, FactorsNe, CGS, SI, GeometricKilometer, GeometricSolar, Nuclear,
      POW2, POW3, POW4]

/-- Membership in the closed quantity set, as a disjunction of the ten names. -/
theorem mem_quantityNames (q : String) (hq : q ∈ quantityNames) :
    q = "length" ∨ q = "time" ∨ q = "velocity" ∨ q = "density" ∨ q = "mass" ∨
    q = "energy" ∨ q = "entropy" ∨ q = "pressure" ∨ q = "temperature" ∨
    q = "chemical_potential" := by
  simpa [quantityNames, quantityMap] using hq

/-! ## Claim theorems -/

/-- C1 (counterexample): the no-target snapshot dump of a concrete system has
13 keys, not 12 as the claim counts them; shown on CGS. -/
theorem invoke_dump_twelve_keys_false :
    invoke CGS none none none = .ok (.dump (snapshot CGS)) ∧
    ((snapshot CGS).map Prod.fst).length = 13 ∧
    ((snapshot CGS).map Prod.fst).length ≠ 12 :=
  ⟨rfl, rfl, by decide⟩

/-- C1 (amended): invoking any concrete system with no target returns the
snapshot dump of all base constants and quantity factors, whose key list is
exactly the fixed 13 names c, G, kb, Msun, MeV, length, time, density, mass,
energy, pressure, temperature, chemical_potential; the call is a pure
function of the system, hence side-effect free. -/
theorem invoke_dump_thirteen_keys (s : SysName) :
    invoke (sys s) none none none = .ok (.dump (snapshot (sys s))) ∧
    (snapshot (sys s)).map Prod.fst =
      ["c", "G", "kb", "Msun", "MeV", "length", "time", "density", "mass",
       "energy", "pressure", "temperature", "chemical_potential"] ∧
    ((snapshot (sys s)).map Prod.fst).length = 13 :=
  ⟨rfl, rfl, rfl⟩

/-- C2 (counterexample): with target and quantity given and value None, the
error need not be the value-required one: for the quantity name bogus the
unknown-quantity check fires first, and that error differs from the
value-required error. -/
theorem invoke_missing_value_not_always :
    invoke CGS (some SI) (some "bogus") none = .error (.unknownQuantity "bogus") ∧
    Err.unknownQuantity "bogus" ≠ Err.valueRequired :=
  ⟨rfl, by decide⟩

/-- C2 (amended): for every source and target system and every quantity name
in the closed quantity set, invoking with the target and quantity given but
value None fails with the invalid-argument error stating a value is
required, returning nothing. -/
theorem invoke_missing_value_error (a b : SysName) (q : String)
    (hq : q ∈ quantityNames) :
    invoke (sys a) (some (sys b)) (some q) none = .error .valueRequired := by
  rcases mem_quantityNames q hq with rfl | rfl | rfl | rfl | rfl | rfl | rfl | rfl | rfl | rfl
  · exact invoke_no_value _ _ _ _ lookup_length
  · exact invoke_no_value _ _ _ _ lookup_time
  · exact invoke_no_value _ _ _ _ lookup_velocity
  · exact invoke_no_value _ _ _ _ lookup_density
  · exact invoke_no_value _ _ _ _ lookup_mass
  · exact invoke_no_value _ _ _ _ lookup_energy
  · exact invoke_no_value _ _ _ _ lookup_entropy
  · exact invoke_no_value _ _ _ _ lookup_pressure
  · exact invoke_no_value _ _ _ _ lookup_temperature
  · exact invoke_no_value _ _ _ _ lookup_chemical

/-- C2 (witness): the amended missing-value theorem at CGS, SI, length. -/
theorem invoke_missing_value_error_witness :
    "length" ∈ quantityNames ∧
    invoke (sys .cgs) (some (sys .si)) (some "length") none = .error .valueRequired :=
  ⟨by decide, invoke_missing_value_error .cgs .si "length" (by decide)⟩

/-- C3: every binary Constant operation, with the other operand a Constant
or a plain number, and including the reflected forms and power, yields a
Constant whose label is self.unit. -/
theorem constant_label_self_unit (a : Constant) (o : Operand) (e : ℤ) :
    (a.add o).unit = a.unit ∧ (a.radd o).unit = a.unit ∧
    (a.sub o).unit = a.unit ∧ (a.rsub o).unit = a.unit ∧
    (a.mul o).unit = a.unit ∧ (a.rmul o).unit = a.unit ∧
    (a.div o).unit = a.unit ∧ (a.rdiv o).unit = a.unit ∧
    (a.pow e).unit = a.unit := by
  cases o <;> exact ⟨rfl, rfl, rfl, rfl, rfl, rfl, rfl, rfl, rfl⟩

/-- C8: invoking any pair of concrete systems with a quantity name outside
the closed set raises the unknown-quantity error, whatever the value. -/
theorem invoke_unknown_quantity_error (a b : SysName) (q : String)
    (hq : q ∉ quantityNames) (v : Value) :
    invoke (sys a) (some (sys b)) (some q) (some v) = .error (.unknownQuantity q) := by
  simp only [invoke, lookup_eq_none_of_not_mem q hq]

/-- C8 (witness): the unknown-quantity theorem at CGS, SI, bogus, value 1. -/
theorem invoke_unknown_quantity_error_witness :
    "bogus" ∉ quantityNames ∧
    invoke (sys .cgs) (some (sys .si)) (some "bogus") (some (.scalar 1)) =
      .error (.unknownQuantity "bogus") :=
  ⟨by decide, invoke_unknown_quantity_error .cgs .si "bogus" (by decide) (.scalar 1)⟩

/-- C9: ConversionProxy attribute access always succeeds, returning a
one-argument callable even for names outside the closed quantity set; the
unknown-quantity error surfaces only when that callable is invoked with a
value. -/
theorem proxy_getattr_deferred_error (p : ConversionProxy) (q : String)
    (hq : q ∉ quantityNames) :
    ∃ f, p.getattr q = .ok f ∧ ∀ v : Value, f v = .error (.unknownQuantity q) := by
  refine ⟨_, rfl, fun v => ?_⟩
  simp only [invoke, lookup_eq_none_of_not_mem q hq]

/-- C9 (witness): the deferred-error theorem on the (CGS, SI) proxy at the
invalid name bogus. -/
theorem proxy_getattr_deferred_error_witness :
    "bogus" ∉ quantityNames ∧
    (∃ f, (ConversionProxy.mk CGS SI).getattr "bogus" = .ok f ∧
      ∀ v : Value, f v = .error (.unknownQuantity "bogus")) :=
  ⟨by decide, proxy_getattr_deferred_error ⟨CGS, SI⟩ "bogus" (by decide)⟩

/-- C4: for every concrete system, every quantity in the closed set and
every value, the self-conversion is the identity: the factor ratio is
exactly 1. -/
theorem invoke_self_identity (s : SysName) (q : String) (hq : q ∈ quantityNames)
    (x : ℚ) :
    invoke (sys s) (some (sys s)) (some q) (some (.scalar x)) = .ok (.value (.scalar x)) := by
  obtain ⟨hl, ht, hd, hm, he, hp, hT, hc, hk⟩ := factorsNe_sys s
  rcases mem_quantityNames q hq with rfl | rfl | rfl | rfl | rfl | rfl | rfl | rfl | rfl | rfl
  · rw [invoke_val _ _ _ _ lookup_length]
    simp only [applyFactor, conv_length, div_self hl, mul_one]
  · rw [invoke_val _ _ _ _ lookup_time]
    simp only [applyFactor, conv_time, div_self ht, mul_one]
  · rw [invoke_val _ _ _ _ lookup_velocity]
    simp only [applyFactor, conv_velocity, div_self hl, one_mul, div_self ht, mul_one]
  · rw [invoke_val _ _ _ _ lookup_density]
    simp only [applyFactor, conv_density, div_self hd, mul_one]
  · rw [invoke_val _ _ _ _ lookup_mass]
    simp only [applyFactor, conv_mass, div_self hm, mul_one]
  · rw [invoke_val _ _ _ _ lookup_energy]
    simp only [applyFactor, conv_energy, div_self he, mul_one]
  · rw [invoke_val _ _ _ _ lookup_entropy]
    simp only [applyFactor, conv_entropy, div_self hk, mul_one]
  · rw [invoke_val _ _ _ _ lookup_pressure]
    simp only [applyFactor, conv_pressure, div_self hp, mul_one]
  · rw [invoke_val _ _ _ _ lookup_temperature]
    simp only [applyFactor, conv_temperature, div_self hT, mul_one]
  · rw [invoke_val _ _ _ _ lookup_chemical]
    simp only [applyFactor, conv_chemical_potential, div_self hc, mul_one]

/-- C4 (witness): self-conversion of velocity in CGS at value 3. -/
theorem invoke_self_identity_witness :
    "velocity" ∈ quantityNames ∧
    invoke (sys .cgs) (some (sys .cgs)) (some "velocity") (some (.scalar 3)) =
      .ok (.value (.scalar 3)) :=
  ⟨by decide, invoke_self_identity .cgs "velocity" (by decide) 3⟩

/-- C5: for every pair of concrete systems and every quantity in the closed
set, converting a value there and back recovers it exactly in the exact
rational embedding (the two factor ratios are reciprocals). -/
theorem invoke_roundtrip (a b : SysName) (q : String) (hq : q ∈ quantityNames)
    (x : ℚ) :
    ∃ y : ℚ,
      invoke (sys a) (some (sys b)) (some q) (some (.scalar x)) = .ok (.value (.scalar y)) ∧
      invoke (sys b) (some (sys a)) (some q) (some (.scalar y)) = .ok (.value (.scalar x)) := by
  obtain ⟨al, at', ad, am, ae, ap, aT, ac, ak⟩ := factorsNe_sys a
  obtain ⟨bl, bt, bd, bm, be, bp, bT, bc, bk⟩ := factorsNe_sys b
  rcases mem_quantityNames q hq with rfl | rfl | rfl | rfl | rfl | rfl | rfl | rfl | rfl | rfl
  · refine ⟨x * conv_length (sys a) (sys b),
      (by rw [invoke_val _ _ _ _ lookup_length]; rfl), ?_⟩
    rw [invoke_val _ _ _ _ lookup_length]
    simp only [applyFactor, conv_length, Except.ok.injEq, InvokeResult.value.injEq,
      Value.scalar.injEq]
    field_simp
  · refine ⟨x * conv_time (sys a) (sys b),
      (by rw [invoke_val _ _ _ _ lookup_time]; rfl), ?_⟩
    rw [invoke_val _ _ _ _ lookup_time]
    simp only [applyFactor, conv_time, Except.ok.injEq, InvokeResult.value.injEq,
      Value.scalar.injEq]
    field_simp
  · refine ⟨x * conv_velocity (sys a) (sys b),
      (by rw [invoke_val _ _ _ _ lookup_velocity]; rfl), ?_⟩
    rw [invoke_val _ _ _ _ lookup_velocity]
    simp only [applyFactor, conv_velocity, Except.ok.injEq, InvokeResult.value.injEq,
      Value.scalar.injEq]
    field_simp
  · refine ⟨x * conv_density (sys a) (sys b),
      (by rw [invoke_val _ _ _ _ lookup_density]; rfl), ?_⟩
    rw [invoke_val _ _ _ _ lookup_density]
    simp only [applyFactor, conv_density, Except.ok.injEq, InvokeResult.value.injEq,
      Value.scalar.injEq]
    field_simp
  · refine ⟨x * conv_mass (sys a) (sys b),
      (by rw [invoke_val _ _ _ _ lookup_mass]; rfl), ?_⟩
    rw [invoke_val _ _ _ _ lookup_mass]
    simp only [applyFactor, conv_mass, Except.ok.injEq, InvokeResult.value.injEq,
      Value.scalar.injEq]
    field_simp
  · refine ⟨x * conv_energy (sys a) (sys b),
      (by rw [invoke_val _ _ _ _ lookup_energy]; rfl), ?_⟩
    rw [invoke_val _ _ _ _ lookup_energy]
    simp only [applyFactor, conv_energy, Except.ok.injEq, InvokeResult.value.injEq,
      Value.scalar.injEq]
    field_simp
  · refine ⟨x * conv_entropy (sys a) (sys b),
      (by rw [invoke_val _ _ _ _ lookup_entropy]; rfl), ?_⟩
    rw [invoke_val _ _ _ _ lookup_entropy]
    simp only [applyFactor, conv_entropy, Except.ok.injEq, InvokeResult.value.injEq,
      Value.scalar.injEq]
    field_simp
  · refine ⟨x * conv_pressure (sys a) (sys b),
      (by rw [invoke_val _ _ _ _ lookup_pressure]; rfl), ?_⟩
    rw [invoke_val _ _ _ _ lookup_pressure]
    simp only [applyFactor, conv_pressure, Except.ok.injEq, InvokeResult.value.injEq,
      Value.scalar.injEq]
    field_simp
  · refine ⟨x * conv_temperature (sys a) (sys b),
      (by rw [invoke_val _ _ _ _ lookup_temperature]; rfl), ?_⟩
    rw [invoke_val _ _ _ _ lookup_temperature]
    simp only [applyFactor, conv_temperature, Except.ok.injEq, InvokeResult.value.injEq,
      Value.scalar.injEq]
    field_simp
  · refine ⟨x * conv_chemical_potential (sys a) (sys b),
      (by rw [invoke_val _ _ _ _ lookup_chemical]; rfl), ?_⟩
    rw [invoke_val _ _ _ _ lookup_chemical]
    simp only [applyFactor, conv_chemical_potential, Except.ok.injEq,
      InvokeResult.value.injEq, Value.scalar.injEq]
    field_simp

/-- C5 (witness): the round trip CGS to GeometricSolar and back on mass 2. -/
theorem invoke_roundtrip_witness :
    "mass" ∈ quantityNames ∧
    (∃ y : ℚ,
      invoke (sys .cgs) (some (sys .geometricSolar)) (some "mass") (some (.scalar 2)) =
        .ok (.value (.scalar y)) ∧
      invoke (sys .geometricSolar) (some (sys .cgs)) (some "mass") (some (.scalar y)) =
        .ok (.value (.scalar 2))) :=
  ⟨by decide, invoke_roundtrip .cgs .geometricSolar "mass" (by decide) 2⟩

/-- C6: every successful conversion returns a container of the same kind as
the input, with each element the input element times the conversion factor
(scalar inputs being the one-element case); the embedding is a pure
function, so the input container is unchanged. -/
theorem invoke_type_preservation (a b : SysName) (q : String)
    (hq : q ∈ quantityNames) (v : Value) :
    ∃ f : ℚ,
      invoke (sys a) (some (sys b)) (some q) (some v) = .ok (.value (applyFactor f v)) ∧
      (applyFactor f v).kind = v.kind ∧
      (applyFactor f v).elems = v.elems.map (· * f) := by
  rcases mem_quantityNames q hq with rfl | rfl | rfl | rfl | rfl | rfl | rfl | rfl | rfl | rfl
  · exact ⟨conv_length (sys a) (sys b), invoke_val _ _ _ _ lookup_length v,
      applyFactor_kind _ _, applyFactor_elems _ _⟩
  · exact ⟨conv_time (sys a) (sys b), invoke_val _ _ _ _ lookup_time v,
      applyFactor_kind _ _, applyFactor_elems _ _⟩
  · exact ⟨conv_velocity (sys a) (sys b), invoke_val _ _ _ _ lookup_velocity v,
      applyFactor_kind _ _, applyFactor_elems _ _⟩
  · exact ⟨conv_density (sys a) (sys b), invoke_val _ _ _ _ lookup_density v,
      applyFactor_kind _ _, applyFactor_elems _ _⟩
  · exact ⟨conv_mass (sys a) (sys b), invoke_val _ _ _ _ lookup_mass v,
      applyFactor_kind _ _, applyFactor_elems _ _⟩
  · exact ⟨conv_energy (sys a) (sys b), invoke_val _ _ _ _ lookup_energy v,
      applyFactor_kind _ _, applyFactor_elems _ _⟩
  · exact ⟨conv_entropy (sys a) (sys b), invoke_val _ _ _ _ lookup_entropy v,
      applyFactor_kind _ _, applyFactor_elems _ _⟩
  · exact ⟨conv_pressure (sys a) (sys b), invoke_val _ _ _ _ lookup_pressure v,
      applyFactor_kind _ _, applyFactor_elems _ _⟩
  · exact ⟨conv_temperature (sys a) (sys b), invoke_val _ _ _ _ lookup_temperature v,
      applyFactor_kind _ _, applyFactor_elems _ _⟩
  · exact ⟨conv_chemical_potential (sys a) (sys b), invoke_val _ _ _ _ lookup_chemical v,
      applyFactor_kind _ _, applyFactor_elems _ _⟩

/-- C6 (witness): type preservation on a two-element tuple, SI to Nuclear
energy. -/
theorem invoke_type_preservation_witness :
    "energy" ∈ quantityNames ∧
    (∃ f : ℚ,
      invoke (sys .si) (some (sys .nuclear)) (some "energy") (some (.tuple [1, 2])) =
        .ok (.value (applyFactor f (.tuple [1, 2]))) ∧
      (applyFactor f (.tuple [1, 2])).kind = (Value.tuple [1, 2]).kind ∧
      (applyFactor f (.tuple [1, 2])).elems = (Value.tuple [1, 2]).elems.map (· * f)) :=
  ⟨by decide, invoke_type_preservation .si .nuclear "energy" (by decide) (.tuple [1, 2])⟩

/-- C7: the derived quantities are computed from base factors rather than
stored: converting unit velocity gives the length ratio times the inverse
time ratio, and converting unit entropy gives the kb ratio. -/
theorem invoke_derived_factors (a b : SysName) :
    invoke (sys a) (some (sys b)) (some "velocity") (some (.scalar 1)) =
      .ok (.value (.scalar ((sys b).length.value / (sys a).length.value *
        ((sys a).time.value / (sys b).time.value)))) ∧
    invoke (sys a) (some (sys b)) (some "entropy") (some (.scalar 1)) =
      .ok (.value (.scalar ((sys b).kb.value / (sys a).kb.value))) := by
  constructor
  · rw [invoke_val _ _ _ _ lookup_velocity]
    simp only [applyFactor, conv_velocity, one_mul, mul_div_assoc]
  · rw [invoke_val _ _ _ _ lookup_entropy]
    simp only [applyFactor, conv_entropy, one_mul]

/-- C10: GeometricSolar and Nuclear assign the same temperature and
chemical_potential factors, each equal to CGS kb over CGS MeV; the four
cross-conversions between the two systems on these quantities use factor
exactly 1 and return the value unchanged, and within each system the two
factors agree. -/
theorem geosolar_nuclear_thermal_factors :
    GeometricSolar.temperature.value = CGS.kb.value / CGS.MeV.value ∧
    GeometricSolar.chemical_potential.value = CGS.kb.value / CGS.MeV.value ∧
    Nuclear.temperature.value = CGS.kb.value / CGS.MeV.value ∧
    Nuclear.chemical_potential.value = CGS.kb.value / CGS.MeV.value ∧
    GeometricSolar.temperature.value = GeometricSolar.chemical_potential.value ∧
    Nuclear.temperature.value = Nuclear.chemical_potential.value ∧
    conv_temperature GeometricSolar Nuclear = 1 ∧
    conv_temperature Nuclear GeometricSolar = 1 ∧
    conv_chemical_potential GeometricSolar Nuclear = 1 ∧
    conv_chemical_potential Nuclear GeometricSolar = 1 ∧
    (∀ x : ℚ, invoke GeometricSolar (some Nuclear) (some "temperature")
      (some (.scalar x)) = .ok (.value (.scalar x))) ∧
    (∀ x : ℚ, invoke Nuclear (some GeometricSolar) (some "temperature")
      (some (.scalar x)) = .ok (.value (.scalar x))) ∧
    (∀ x : ℚ, invoke GeometricSolar (some Nuclear) (some "chemical_potential")
      (some (.scalar x)) = .ok (.value (.scalar x))) ∧
    (∀ x : ℚ, invoke Nuclear (some GeometricSolar) (some "chemical_potential")
      (some (.scalar x)) = .ok (.value (.scalar x))) := by
  have hne : CGS.kb.value / CGS.MeV.value ≠ 0 := by norm_num [CGS]
  have hT1 : conv_temperature GeometricSolar Nuclear = 1 := by
    simp only [conv_temperature, GeometricSolar, Nuclear]
    exact div_self hne
  have hT2 : conv_temperature Nuclear GeometricSolar = 1 := by
    simp only [conv_temperature, GeometricSolar, Nuclear]
    exact div_self hne
  have hC1 : conv_chemical_potential GeometricSolar Nuclear = 1 := by
    simp only [conv_chemical_potential, GeometricSolar, Nuclear]
    exact div_self hne
  have hC2 : conv_chemical_potential Nuclear GeometricSolar = 1 := by
    simp only [conv_chemical_potential, GeometricSolar, Nuclear]
    exact div_self hne
  refine ⟨rfl, rfl, rfl, rfl, rfl, rfl, hT1, hT2, hC1, hC2, ?_, ?_, ?_, ?_⟩
  · intro x
    rw [invoke_val _ _ _ _ lookup_temperature]
    simp only [applyFactor, hT1, mul_one]
  · intro x
    rw [invoke_val _ _ _ _ lookup_temperature]
    simp only [applyFactor, hT2, mul_one]
  · intro x
    rw [invoke_val _ _ _ _ lookup_chemical]
    simp only [applyFactor, hC1, mul_one]
  · intro x
    rw [invoke_val _ _ _ _ lookup_chemical]
    simp only [applyFactor, hC2, mul_one]

end McUnit
